import Mathlib

/-
Shallow embedding of the RPI_WateringController repository
(src/App.py, src/Plant.py, src/Optimisation.py, src/Weather.py).

Moisture levels, durations and timestamps are modelled as rationals;
Python numeric values in the relevant code paths are plain decimals,
so exact rational arithmetic is a faithful model.  Each definition
mirrors one Python function or method; concurrent mutation of the
soil-moisture cell (background depletion thread, pump thread) is
modelled by an oracle stream of successive `get_soil_moisture()`
read results, and exceptions by `Except` values driven by a fault
oracle, as the embedded code can observe them only at those points.
-/

namespace Watering

/-- State of `Pump` (src/Plant.py lines 25-29): on/off flag and the
cancellation-request flag. -/
structure PumpState where
  is_on : Bool
  cancel_requested : Bool
deriving Repr, DecidableEq

/-- Body step of `Plant.decrease_soil_moisture` (src/Plant.py lines 14-19):
subtract the depletion rate, clamp at the floor 0. -/
def decrease_soil_moisture (moisture_depletion_rate level : ℚ) : ℚ :=
  let l := level - moisture_depletion_rate
  if l < 0 then 0 else l

/-- Default depletion rate set in `Plant.__init__` (src/Plant.py line 9). -/
def moisture_depletion_rate : ℚ := 1/10

/-- Effect of `Pump.add_water` (src/Plant.py lines 55-59) on the soil
moisture level: when the pump is on, add 0.5 and reset to 1.0 whenever the
result exceeds 1.0; when off, no change. -/
def add_water (is_on : Bool) (level : ℚ) : ℚ :=
  if is_on then
    let l := level + 1/2
    if l > 1 then 1 else l
  else level

/-- Effect of `Pump.cancel` (src/Plant.py lines 61-63): request cancellation
only when the pump is currently on. -/
def pump_cancel (p : PumpState) : PumpState :=
  if p.is_on then { p with cancel_requested := true } else p

/-- Effect of `Pump.turn_on` on the pump flags (src/Plant.py lines 31-34). -/
def pump_turn_on (_p : PumpState) : PumpState :=
  { is_on := true, cancel_requested := false }

/-- The in-memory postponement record `self.postponedWater`
(src/App.py lines 69-73). -/
structure Postponement where
  postponed : Bool
  postponedAt : Option ℚ
  postponedBy : Option String
deriving Repr, DecidableEq

/-- Combined state of the `System` object (src/App.py `System.__init__`)
together with the `Optimisation` object attached to it and the two
database cells the embedded code writes (the persisted `system_enabled`
flag and the persisted optimisation ratio).  The Python attribute
`self.enabled` is assigned only by `initialize` and `disable_system`,
never in `__init__`, so it is an `Option Bool` (`none` = attribute
absent, reading it raises `AttributeError`). -/
structure SysState where
  operating_settings_desired_moisture_level : ℚ
  operating_settings_water_threshold : ℚ
  operating_hours_mode : String
  weather_detection_enabled : Bool
  weather_detection_mode : String
  weather_detection_postpone_percentage : ℚ
  weather_detection_postpone_mm : ℚ
  danger_mode_enabled : Bool
  danger_mode_level : ℚ
  danger_mode_bypass_enabled : Bool
  danger_mode_bypass_water_percentage : ℚ
  water_cycle_length : ℚ
  system_enabled : Bool
  cancelRequested : Bool
  enabled : Option Bool
  status : String
  soil_moisture : ℚ
  pump : PumpState
  postponedWater : Postponement
  optimisation_data : List ℚ
  optimisation_data_collected : ℕ
  db_system_enabled : Bool
  db_water_per_percent : Option ℚ
deriving Repr, DecidableEq

/-- Number of samples required before evaluation,
`Optimisation.data_points_required` (src/Optimisation.py line 11). -/
def data_points_required : ℕ := 10

/-- Consistency tolerance, `Optimisation.threshold_tolerance`
(src/Optimisation.py line 12). -/
def threshold_tolerance : ℚ := 1/20

/-- Error raised by every call to `self.system.add_log_entry`
(src/Optimisation.py lines 30 and 35, among others): the `System` class
in src/App.py defines no method `add_log_entry` and nothing ever assigns
one, so the attribute lookup raises. -/
def add_log_entry_error : String :=
  "AttributeError: 'System' object has no attribute 'add_log_entry'"

/-- Error raised by the tuple unpacking at src/App.py lines 235-236:
`get_sunrise_sunset_times` and `get_precipitation_data` are `async def`
(src/Weather.py lines 132 and 118) but are called WITHOUT `await`, so
each call expression is a coroutine object, not a pair, and unpacking it
raises `TypeError` unconditionally. -/
def unawaited_unpack_error : String :=
  "TypeError: cannot unpack non-iterable coroutine object"

/-- Tuple unpacking of the value of an un-awaited call to an async
function (the shape of src/App.py lines 235 and 236): the call yields a
coroutine object, never a pair, so the unpacking always raises. -/
def unpack_unawaited_coroutine : Except String (ℚ × ℚ) :=
  .error unawaited_unpack_error

/-- Pure core of `Optimisation.evaluate_optimisation`
(src/Optimisation.py lines 37-52): compute the mean of the collected
ratios and the absolute deviation of each sample from it; when every
deviation is within `threshold_tolerance * mean` the mean is persisted
(`save_optimisation_data`), otherwise nothing is persisted.  The result
pairs the (untouched) sample list with the persisted value, if any. -/
def evaluate_optimisation (data : List ℚ) : List ℚ × Option ℚ :=
  let average_water_per_percent := data.sum / (data.length : ℚ)
  let deviations := data.map (fun x => |x - average_water_per_percent|)
  if deviations.all (fun d => decide (d ≤ threshold_tolerance * average_water_per_percent)) then
    (data, some average_water_per_percent)
  else
    (data, none)

/-- Lift of `evaluate_optimisation` to the system state: a validated mean
is written to the persisted optimisation cell (`save_optimisation_data`,
src/Optimisation.py lines 54-62); otherwise the state is unchanged. -/
def evaluate_optimisation_state (s : SysState) : SysState :=
  match evaluate_optimisation s.optimisation_data with
  | (_, some v) => { s with db_water_per_percent := some v }
  | (_, none) => s

/-- Embedding of `Optimisation.collect_data` (src/Optimisation.py
lines 14-35).  `readings` is the oracle of successive
`get_soil_moisture()` results and `idx` the position of the next read:
the method reads `initial_moisture` at call time, sleeps
(`water_cycle_length` plus 60), reads `final_moisture`, and when
`final - initial > 0` appends `water_cycle_length / increase` and
increments the collected count; the log call at line 30 then raises
`AttributeError` (`System` defines no `add_log_entry`), so the
evaluation trigger at lines 32-33 is unreachable.  When the increase is
not positive, the warning call at line 35 raises the same error with
the state untouched.  Either way the method raises; the error carries
the state at the raise.  The `current_moisture` parameter is the value
the caller passes in (src/App.py line 202). -/
def collect_data (water_cycle_length current_moisture : ℚ)
    (readings : ℕ → ℚ) (idx : ℕ) (s : SysState) :
    Except (String × SysState) (SysState × ℕ) :=
  let initial_moisture := readings idx
  let final_moisture := readings (idx + 1)
  let increase := final_moisture - initial_moisture
  if increase > 0 then
    let water_per_percent := water_cycle_length / increase
    let s1 := { s with
      optimisation_data := s.optimisation_data ++ [water_per_percent],
      optimisation_data_collected := s.optimisation_data_collected + 1 }
    .error (add_log_entry_error, s1)
  else
    .error (add_log_entry_error, s)

/-- Embedding of `System.disable_system` (src/App.py lines 222-227):
set `self.enabled = False`, set status `"DISABLED"`, and request
cancellation of the pump (`self.plant.pump.cancel()`). -/
def disable_system (s : SysState) : SysState :=
  { s with enabled := some false, status := "DISABLED", pump := pump_cancel s.pump }

/-- Embedding of `System.enable_system` (src/App.py lines 209-220):
set `self.system_enabled = True`, set status `"IDLE"`, persist the
enabled flag to the database, then spawn `run_loop` (the spawned loop is
modelled separately by `run_loop_ticks`).  Note the method assigns
`self.system_enabled`, not the `self.enabled` attribute that the
spawned loop's guard reads. -/
def enable_system (s : SysState) : SysState :=
  { s with system_enabled := true, status := "IDLE", db_system_enabled := true }

/-- Per-tick external inputs of the `System.monitor_plant` decision
logic (src/App.py lines 234-236 and 255): the current time, the
sunrise/sunset times and the rainfall amount and probability that
awaited calls to the weather getters would produce (in the program the
un-awaited calls raise before yielding them, see `monitor_plant`), and
the parsed manual operating-hours bounds, all on one rational time
axis. -/
structure TickEnv where
  current_time : ℚ
  sunrise_time : ℚ
  sunset_time : ℚ
  manual_start : ℚ
  manual_end : ℚ
  amount_of_rainfall : ℚ
  probability_of_rain : ℚ
deriving Repr, DecidableEq

/-- Oracle world for a `water_plant` run: `readings` gives the successive
`get_soil_moisture()` results (the cell is mutated concurrently by the
pump and depletion threads), and `faults idx = some e` injects an
exception `e` raised during the loop iteration whose guard read sits at
`idx` (src/App.py line 205 catches any such exception). -/
structure WaterEnv where
  readings : ℕ → ℚ
  faults : ℕ → Option String
deriving Inhabited

/-- Loop body of `System.water_plant` (src/App.py lines 181-204), inside
the `try`: while the freshly read moisture is below the target, check
`cancelRequested` (if set, `disable_system` and return), turn the pump
on, sleep for the cycle plus 60 for stabilisation, re-read the moisture,
stop on reaching the target, otherwise feed `(water_cycle_length,
current_moisture)` to `Optimisation.collect_data` and repeat; an
exception raised inside `collect_data` (it always raises, see its doc)
propagates into this body and is caught by `water_plant`'s handler.
`fuel` bounds the number of iterations the embedding unrolls; an
injected fault aborts with the exception and the state at that point. -/
def water_plant_body (target : ℚ) (w : WaterEnv) :
    ℕ → ℕ → SysState → Except (String × SysState) SysState
  | 0, _, s => .ok s
  | fuel + 1, idx, s =>
    if w.readings idx < target then
      if s.cancelRequested then
        .ok (disable_system s)
      else
        match w.faults idx with
        | some e => .error (e, s)
        | none =>
          let s1 := { s with pump := pump_turn_on s.pump }
          let current_moisture := w.readings (idx + 1)
          if target ≤ current_moisture then
            .ok s1
          else
            match collect_data s1.water_cycle_length current_moisture w.readings (idx + 2) s1 with
            | .error es => .error es
            | .ok r => water_plant_body target w fuel r.2 r.1
    else
      .ok s

/-- Embedding of `System.water_plant` (src/App.py lines 176-207): the
whole loop body runs inside `try`; `except Exception` logs the error and
calls `disable_system`, so the procedure always returns a state and
never propagates an error. -/
def water_plant (target : ℚ) (w : WaterEnv) (fuel : ℕ) (s : SysState) : SysState :=
  match water_plant_body target w fuel 0 s with
  | .ok s1 => s1
  | .error es => disable_system es.2

/-- Outcome of one `System.monitor_plant` decision, naming which of the
mutually exclusive exit paths of src/App.py lines 243-294 the tick took. -/
inductive TickAction where
  | waterDanger (target : ℚ)
  | skipOutsideHours
  | waterDangerAfterRain (target : ℚ)
  | postponeRain
  | waterTrigger (target : ℚ)
  | noAction
deriving Repr, DecidableEq

/-- Moisture-threshold part of `System.monitor_plant` (src/App.py
lines 259-294): when the (re-read) soil moisture is at most `triggerAt`,
weather detection may postpone (mode `AND`: rainfall at least
`postpone_mm` and probability at least `postpone_percentage`; mode `OR`:
either), re-checking the danger bypass (`dangerCond`, computed by the
caller from the moisture read at the top of the tick) before recording
the postponement entry; otherwise the tick waters to `triggerAt`; above
the threshold nothing happens. -/
def monitor_threshold_branch (s : SysState) (env : TickEnv) (w : WaterEnv) (fuel : ℕ)
    (triggerAt : ℚ) (dangerCond : Bool) : SysState × TickAction :=
  if s.soil_moisture ≤ triggerAt then
    let rainPostpone : SysState × TickAction :=
      if dangerCond then
        (water_plant s.danger_mode_bypass_water_percentage w fuel s,
          .waterDangerAfterRain s.danger_mode_bypass_water_percentage)
      else
        ({ s with postponedWater :=
            { postponed := true,
              postponedAt := some env.current_time,
              postponedBy := some "Weather Detection" } },
          .postponeRain)
    let waterNow : SysState × TickAction :=
      (water_plant triggerAt w fuel s, .waterTrigger triggerAt)
    if s.weather_detection_enabled then
      if s.weather_detection_mode = "AND" then
        if env.amount_of_rainfall ≥ s.weather_detection_postpone_mm ∧
            env.probability_of_rain ≥ s.weather_detection_postpone_percentage then
          rainPostpone
        else waterNow
      else if s.weather_detection_mode = "OR" then
        if env.amount_of_rainfall ≥ s.weather_detection_postpone_mm ∨
            env.probability_of_rain ≥ s.weather_detection_postpone_percentage then
          rainPostpone
        else waterNow
      else waterNow
    else waterNow
  else (s, .noAction)

/-- Decision logic of `System.monitor_plant` from the moisture read on
(src/App.py lines 238-294) — the code that would run had the weather
unpacking at lines 235-236 succeeded.  It is UNREACHABLE in the
program: every tick raises at line 235 (see `monitor_plant`), so this
function states what the decision machine as written does, not what any
execution does.  Reads the current soil moisture, computes `triggerAt =
(water_threshold / 100) * desired` and the danger condition
`currentSoilMoisture <= (danger_mode_level / 100) * desired`; inside the
`auto`/`manual` operating-hours block the danger bypass is checked first
and waters to `danger_mode_bypass_water_percentage`, then out-of-hours
ticks return silently; past the block the moisture-threshold logic of
`monitor_threshold_branch` runs.  Returns the post-tick state and the
action taken. -/
def monitor_plant_decision (s : SysState) (env : TickEnv) (w : WaterEnv) (fuel : ℕ) :
    SysState × TickAction :=
  let currentSoilMoisture := s.soil_moisture
  let desiredSoilMoisture := s.operating_settings_desired_moisture_level
  let triggerAt := (s.operating_settings_water_threshold / 100) * desiredSoilMoisture
  let dangerCond := s.danger_mode_enabled && s.danger_mode_bypass_enabled &&
    decide (currentSoilMoisture ≤ (s.danger_mode_level / 100) * desiredSoilMoisture)
  if s.operating_hours_mode = "auto" ∨ s.operating_hours_mode = "manual" then
    if dangerCond then
      (water_plant s.danger_mode_bypass_water_percentage w fuel s,
        .waterDanger s.danger_mode_bypass_water_percentage)
    else if s.operating_hours_mode = "auto" ∧
        (env.current_time < env.sunrise_time ∨ env.current_time > env.sunset_time) then
      (s, .skipOutsideHours)
    else if s.operating_hours_mode = "manual" ∧
        (env.current_time < env.manual_start ∨ env.current_time > env.manual_end) then
      (s, .skipOutsideHours)
    else monitor_threshold_branch s env w fuel triggerAt dangerCond
  else monitor_threshold_branch s env w fuel triggerAt dangerCond

/-- Embedding of `System.monitor_plant` (src/App.py lines 229-294).
Line 235 tuple-unpacks `get_sunrise_sunset_times(db)` and line 236
`get_precipitation_data(db)` — both `async def` called WITHOUT `await`,
so each expression is a coroutine object and the first unpacking raises
`TypeError` before the soil moisture is even read.  Every tick therefore
raises; the decision logic (`monitor_plant_decision`, sitting in the
dead `.ok` branches below) never runs in the program.  The error carries
the state at the raise, which is the unmodified tick-entry state; the
pair the unpacking was meant to produce is the data the `TickEnv`
fields hold. -/
def monitor_plant (s : SysState) (env : TickEnv) (w : WaterEnv) (fuel : ℕ) :
    Except (String × SysState) (SysState × TickAction) :=
  match unpack_unawaited_coroutine with
  | .error e => .error (e, s)
  | .ok _ =>
    match unpack_unawaited_coroutine with
    | .error e => .error (e, s)
    | .ok _ => .ok (monitor_plant_decision s env w fuel)

/-- Embedding of `System.run_loop` (src/App.py lines 296-300) counting
decide-and-act evaluations: the guard reads the `self.enabled` attribute
(`AttributeError` when it was never assigned); while it is true, run one
tick (`step`) and continue; the count of `monitor_plant` evaluations
performed is returned when the guard turns false or `fuel` runs out. -/
def run_loop_ticks (step : SysState → SysState) : ℕ → SysState → Except String ℕ
  | 0, _ => .ok 0
  | fuel + 1, s =>
    match s.enabled with
    | none => .error "AttributeError"
    | some false => .ok 0
    | some true =>
      match run_loop_ticks step fuel (step s) with
      | .ok n => .ok (n + 1)
      | .error e => .error e

/-- Embedding of `System.run_loop` propagating tick errors: the loop body
`await self.monitor_plant()` has no exception handler, so an exception
raised by a tick propagates out of `run_loop` and ends the loop.  `tick`
may fail (e.g. the weather unpacking of src/App.py line 236); the result
is the number of completed ticks, or the propagated error. -/
def run_loop_exc (tick : ℕ → SysState → Except String SysState) :
    ℕ → ℕ → SysState → Except String ℕ
  | 0, n, _ => .ok n
  | fuel + 1, n, s =>
    match s.enabled with
    | none => .error "AttributeError"
    | some false => .ok n
    | some true =>
      match tick n s with
      | .error e => .error e
      | .ok s1 => run_loop_exc tick fuel (n + 1) s1

/-- Weather record as stored by `fetch_and_store_weather_data`
(src/Weather.py lines 57-67). -/
structure WeatherRecord where
  mmOfRainfall : ℚ
  rainfallProbability : ℚ
  sunrise : ℚ
  sunset : ℚ
  createdAt : ℚ
deriving Repr, DecidableEq

/-- Embedding of `get_precipitation_data` (src/Weather.py lines 118-129):
take the cached record; when there is none or it is older than one hour
(3600 seconds), replace it by the refresh result (`refreshed` is what
`fetch_and_store_weather_data` produced, `none` on failure); if a record
is then available return the `(mmOfRainfall, rainfallProbability)` pair,
otherwise return the bare `None` sentinel (`none`). -/
def get_precipitation_data (cached : Option WeatherRecord) (now : ℚ)
    (refreshed : Option WeatherRecord) : Option (ℚ × ℚ) :=
  let weather_data := match cached with
    | none => refreshed
    | some w => if now - w.createdAt > 3600 then refreshed else some w
  match weather_data with
  | some w => some (w.mmOfRainfall, w.rainfallProbability)
  | none => none

/-- Tuple unpacking at the `monitor_plant` call site (src/App.py
line 236): `amount_of_rainfall, probability_of_rain = ...` succeeds on a
pair and raises `TypeError` when `get_precipitation_data` returned the
bare `None` sentinel. -/
def unpack_precipitation (r : Option (ℚ × ℚ)) : Except String (ℚ × ℚ) :=
  match r with
  | some p => .ok p
  | none => .error "TypeError: cannot unpack non-iterable NoneType object"

/-- Weather-postponement combination of src/App.py lines 262 and 277:
mode `"AND"` requires both the rainfall amount and the rain probability
to reach their thresholds, any other configured mode reaching the `OR`
branch requires either. -/
def postpone_combo (s : SysState) (env : TickEnv) : Bool :=
  if s.weather_detection_mode = "AND" then
    decide (env.amount_of_rainfall ≥ s.weather_detection_postpone_mm) &&
      decide (env.probability_of_rain ≥ s.weather_detection_postpone_percentage)
  else
    decide (env.amount_of_rainfall ≥ s.weather_detection_postpone_mm) ||
      decide (env.probability_of_rain ≥ s.weather_detection_postpone_percentage)

/-- Default state after `System.__init__` (src/App.py lines 38-74) and
plant creation with the default desired moisture (src/App.py line 171):
all the default settings, no `enabled` attribute yet, status `"INIT"`,
soil moisture at the desired level, pump off, empty postponement record
and no optimisation samples. -/
def init_state : SysState :=
  { operating_settings_desired_moisture_level := 100
    operating_settings_water_threshold := 20
    operating_hours_mode := "auto"
    weather_detection_enabled := true
    weather_detection_mode := "AND"
    weather_detection_postpone_percentage := 35
    weather_detection_postpone_mm := 5
    danger_mode_enabled := true
    danger_mode_level := 10
    danger_mode_bypass_enabled := true
    danger_mode_bypass_water_percentage := 40
    water_cycle_length := 5
    system_enabled := false
    cancelRequested := false
    enabled := none
    status := "INIT"
    soil_moisture := 100
    pump := { is_on := false, cancel_requested := false }
    postponedWater := { postponed := false, postponedAt := none, postponedBy := none }
    optimisation_data := []
    optimisation_data_collected := 0
    db_system_enabled := false
    db_water_per_percent := none }

/-- State of an initialized, enabled system: `initialize` (src/App.py
lines 160-165) has set `self.enabled = True` and status `"IDLE"`. -/
def running_state : SysState :=
  { init_state with system_enabled := true, enabled := some true, status := "IDLE" }

/-- Fault-free watering world whose every moisture read returns 100, so
a `water_plant` run with a target at most 100 ends immediately. -/
def calm_wenv : WaterEnv :=
  { readings := fun _ => 100, faults := fun _ => none }

/-- Enabled system in the danger zone: soil moisture 5 is at most
`dangerLevel = (10 / 100) * 100 = 10`. -/
def danger_state : SysState :=
  { running_state with soil_moisture := 5 }

/-- Tick inputs outside the auto operating hours (current time 20 is
past sunset 18) with the rain-postponement condition holding
(rainfall 6 at least 5, probability 40 at least 35). -/
def after_hours_rain_env : TickEnv :=
  { current_time := 20, sunrise_time := 6, sunset_time := 18,
    manual_start := 6, manual_end := 18,
    amount_of_rainfall := 6, probability_of_rain := 40 }

/-- Enabled system below the trigger level with danger mode off:
soil moisture 15 is at most `triggerAt = (20 / 100) * 100 = 20`. -/
def low_moisture_state : SysState :=
  { running_state with danger_mode_enabled := false, soil_moisture := 15 }

/-- Tick inputs inside the auto operating hours with the
rain-postponement condition holding (mode `AND`: 6 at least 5 and 40 at
least 35). -/
def in_hours_rain_env : TickEnv :=
  { current_time := 12, sunrise_time := 6, sunset_time := 18,
    manual_start := 6, manual_end := 18,
    amount_of_rainfall := 6, probability_of_rain := 40 }

/-- Tick inputs inside the auto operating hours with the
rain-postponement condition failing in mode `AND` (probability 10 is
below 35, as in the spec's example). -/
def in_hours_dry_env : TickEnv :=
  { current_time := 12, sunrise_time := 6, sunset_time := 18,
    manual_start := 6, manual_end := 18,
    amount_of_rainfall := 6, probability_of_rain := 10 }

/-- Watering world that injects an exception at the first loop
iteration of `water_plant` while the moisture reads 0. -/
def faulty_wenv : WaterEnv :=
  { readings := fun _ => 0, faults := fun _ => some "RuntimeError" }

/-- Read oracle returning 50 forever: the two reads of `collect_data`
give a zero moisture increase. -/
def flat_readings : ℕ → ℚ := fun _ => 50

/-- Read oracle for the `collect_data` divergence: the first read (at
call time) gives 50, every later read gives 55. -/
def step_readings : ℕ → ℚ := fun n => if n = 0 then 50 else 55

/-- Cached weather record created at time 0 (src/Weather.py lines
57-67); at `now = 7200` it is more than one hour old, hence stale. -/
def stale_record : WeatherRecord :=
  { mmOfRainfall := 2, rainfallProbability := 30, sunrise := 6, sunset := 18, createdAt := 0 }

/-- Helper: closed form of `evaluate_optimisation` — the sample list is
returned unchanged, and the mean is persisted exactly when every
deviation from it is within tolerance. -/
theorem evaluate_optimisation_eq (data : List ℚ) :
    evaluate_optimisation data =
      (data,
        if ∀ x ∈ data, |x - data.sum / (data.length : ℚ)| ≤
            threshold_tolerance * (data.sum / (data.length : ℚ))
        then some (data.sum / (data.length : ℚ)) else none) := by
  unfold evaluate_optimisation
  by_cases h : ∀ x ∈ data, |x - data.sum / (data.length : ℚ)| ≤
      threshold_tolerance * (data.sum / (data.length : ℚ))
  · rw [if_pos h, if_pos]
    rw [List.all_eq_true]
    intro d hd
    rcases List.mem_map.mp hd with ⟨x, hx, rfl⟩
    exact decide_eq_true (h x hx)
  · rw [if_neg h, if_neg]
    intro hall
    apply h
    intro x hx
    exact of_decide_eq_true (List.all_eq_true.mp hall _ (List.mem_map_of_mem _ hx))

/-- C2: after `enable_system()` the enabled flag is persisted and the
status is IDLE, but the monitor loop it spawns guards on the separate
`self.enabled` attribute, which `enable_system` leaves untouched: from a
previously disabled state the spawned loop performs zero decide-and-act
evaluations although `system_enabled` is true, and conversely a loop
started with `enabled = True` keeps ticking even when `system_enabled`
is false — refuting the claim that the loop's guard observes the flag
`enable_system()` sets. -/
theorem enable_system_loop_guard_mismatch :
    (enable_system (disable_system running_state)).system_enabled = true ∧
    (enable_system (disable_system running_state)).status = "IDLE" ∧
    (enable_system (disable_system running_state)).db_system_enabled = true ∧
    (enable_system (disable_system running_state)).enabled = some false ∧
    (∀ (step : SysState → SysState) (fuel : ℕ),
      run_loop_ticks step fuel (enable_system (disable_system running_state)) = .ok 0) ∧
    run_loop_ticks (fun s => s) 1 { running_state with system_enabled := false } = .ok 1 := by
  refine ⟨rfl, rfl, rfl, rfl, ?_, rfl⟩
  intro step fuel
  cases fuel <;> rfl

/-- C4: `evaluate_optimisation` leaves the sample sequence unchanged,
persists the mean of the collected ratios exactly when every sample's
absolute deviation from the mean is at most `threshold_tolerance`
(0.05) times the mean, and persists nothing otherwise; in particular
ten samples equal to 4 validate and persist 4, while nine samples of 44
and one of 54 (which deviates from the mean 45 by 20 percent) are
inconsistent and persist nothing. -/
theorem evaluate_optimisation_consistency (data : List ℚ) (hne : data ≠ []) :
    ((evaluate_optimisation data).1 = data) ∧
    ((evaluate_optimisation data).2 = some (data.sum / (data.length : ℚ)) ↔
      ∀ x ∈ data, |x - data.sum / (data.length : ℚ)| ≤
        threshold_tolerance * (data.sum / (data.length : ℚ))) ∧
    ((¬ ∀ x ∈ data, |x - data.sum / (data.length : ℚ)| ≤
        threshold_tolerance * (data.sum / (data.length : ℚ))) →
      (evaluate_optimisation data).2 = none) ∧
    (∀ s : SysState, (evaluate_optimisation_state s).optimisation_data = s.optimisation_data) ∧
    evaluate_optimisation (List.replicate 10 4) = (List.replicate 10 4, some 4) ∧
    evaluate_optimisation (List.replicate 9 44 ++ [54]) = (List.replicate 9 44 ++ [54], none) := by
  refine ⟨?_, ?_, ?_, ?_, ?_, ?_⟩
  · rw [evaluate_optimisation_eq]
  · rw [evaluate_optimisation_eq]
    by_cases h : ∀ x ∈ data, |x - data.sum / (data.length : ℚ)| ≤
        threshold_tolerance * (data.sum / (data.length : ℚ))
    · simp [h]
    · simp [h]
  · intro hnot
    rw [evaluate_optimisation_eq]
    simp [hnot]
  · intro s
    unfold evaluate_optimisation_state
    split <;> rfl
  · have hcond : ∀ x ∈ List.replicate 10 (4:ℚ),
        |x - (List.replicate 10 (4:ℚ)).sum / ((List.replicate 10 (4:ℚ)).length : ℚ)| ≤
          threshold_tolerance *
            ((List.replicate 10 (4:ℚ)).sum / ((List.replicate 10 (4:ℚ)).length : ℚ)) := by
      intro x hx
      have hx4 := List.eq_of_mem_replicate hx
      subst hx4
      norm_num [threshold_tolerance, List.sum_replicate, nsmul_eq_mul]
    rw [evaluate_optimisation_eq, if_pos hcond]
    norm_num [List.sum_replicate, nsmul_eq_mul]
  · have hnot : ¬ ∀ x ∈ List.replicate 9 (44:ℚ) ++ [54],
        |x - (List.replicate 9 (44:ℚ) ++ [54]).sum /
            ((List.replicate 9 (44:ℚ) ++ [54]).length : ℚ)| ≤
          threshold_tolerance *
            ((List.replicate 9 (44:ℚ) ++ [54]).sum /
              ((List.replicate 9 (44:ℚ) ++ [54]).length : ℚ)) := by
      intro hall
      have h54 := hall 54 (by simp)
      rw [List.sum_append, List.sum_replicate, List.length_append, List.length_replicate] at h54
      norm_num [threshold_tolerance, nsmul_eq_mul] at h54
    rw [evaluate_optimisation_eq, if_neg hnot]

/-- C4 witness: the consistency theorem applied to the one-sample list
`[4]`, whose hypothesis `[4] ≠ []` holds. -/
theorem evaluate_optimisation_consistency_witness :
    (([4] : List ℚ) ≠ []) ∧
    (((evaluate_optimisation [4]).1 = [4]) ∧
    ((evaluate_optimisation [4]).2 = some (List.sum [4] / ((List.length [4] : ℕ) : ℚ)) ↔
      ∀ x ∈ ([4] : List ℚ), |x - List.sum [4] / ((List.length [4] : ℕ) : ℚ)| ≤
        threshold_tolerance * (List.sum [4] / ((List.length [4] : ℕ) : ℚ))) ∧
    ((¬ ∀ x ∈ ([4] : List ℚ), |x - List.sum [4] / ((List.length [4] : ℕ) : ℚ)| ≤
        threshold_tolerance * (List.sum [4] / ((List.length [4] : ℕ) : ℚ))) →
      (evaluate_optimisation [4]).2 = none) ∧
    (∀ s : SysState, (evaluate_optimisation_state s).optimisation_data = s.optimisation_data) ∧
    evaluate_optimisation (List.replicate 10 4) = (List.replicate 10 4, some 4) ∧
    evaluate_optimisation (List.replicate 9 44 ++ [54]) = (List.replicate 9 44 ++ [54], none)) :=
  ⟨by decide, evaluate_optimisation_consistency [4] (by decide)⟩

/-- C5: whenever the body of `water_plant` raises, the procedure
catches the exception, applies `disable_system` to the state at the
point of failure (status becomes DISABLED, the enabled flag is cleared
and pump cancellation is requested), and returns that state instead of
propagating the error. -/
theorem water_plant_fail_safe (target : ℚ) (w : WaterEnv) (fuel : ℕ)
    (s : SysState) (e : String) (serr : SysState)
    (herr : water_plant_body target w fuel 0 s = .error (e, serr)) :
    water_plant target w fuel s = disable_system serr ∧
    (water_plant target w fuel s).status = "DISABLED" ∧
    (water_plant target w fuel s).enabled = some false ∧
    (water_plant target w fuel s).pump = pump_cancel serr.pump := by
  unfold water_plant
  rw [herr]
  exact ⟨rfl, rfl, rfl, rfl⟩

/-- C5 witness: a fault injected at the first watering iteration is
caught; the system comes back disabled with cancellation requested. -/
theorem water_plant_fail_safe_witness :
    water_plant_body 50 faulty_wenv 1 0 running_state = .error ("RuntimeError", running_state) ∧
    (water_plant 50 faulty_wenv 1 running_state = disable_system running_state ∧
    (water_plant 50 faulty_wenv 1 running_state).status = "DISABLED" ∧
    (water_plant 50 faulty_wenv 1 running_state).enabled = some false ∧
    (water_plant 50 faulty_wenv 1 running_state).pump = pump_cancel running_state.pump) :=
  ⟨rfl, water_plant_fail_safe 50 faulty_wenv 1 running_state "RuntimeError" running_state rfl⟩

/-- C6: with no cached weather record and a failed refresh (and likewise
with only a stale cached record), `get_precipitation_data` returns the
bare `None` sentinel rather than a pair, so the tuple unpacking at its
`monitor_plant` call site raises `TypeError`, and `run_loop`, which has
no handler around its tick, propagates such a tick error and stops —
refuting the claim that the decision step proceeds as if no rain were
detected and that no weather-data error terminates the monitor loop. -/
theorem weather_unavailable_crashes_tick :
    get_precipitation_data none 0 none = none ∧
    get_precipitation_data (some stale_record) 7200 none = none ∧
    unpack_precipitation (get_precipitation_data none 0 none) =
      .error "TypeError: cannot unpack non-iterable NoneType object" ∧
    run_loop_exc
      (fun _ _ => .error "TypeError: cannot unpack non-iterable NoneType object")
      5 0 running_state =
      .error "TypeError: cannot unpack non-iterable NoneType object" := by
  refine ⟨rfl, ?_, rfl, rfl⟩
  have hstale : (7200 : ℚ) - stale_record.createdAt > 3600 := by
    norm_num [stale_record]
  simp [get_precipitation_data, hstale]

/-- C8: `Pump.add_water` does not clamp at the maximum of the 0-100
moisture scale: with the pump on and the level at 50 it resets the
level to 1.0 (the increment-then-clamp a claim on the 0-100 scale would
give is 50.5), and from the default initial level 100 it also drops the
level to 1.0; the depletion step does clamp at the floor 0 and
otherwise subtracts the rate. -/
theorem add_water_unit_mismatch :
    add_water true 50 = 1 ∧
    add_water true 50 ≠ 50 + 1/2 ∧
    add_water true 50 ≠ min (50 + 1/2) 100 ∧
    add_water true 100 = 1 ∧
    decrease_soil_moisture moisture_depletion_rate (1/20) = 0 ∧
    decrease_soil_moisture moisture_depletion_rate 50 = 50 - 1/10 := by
  refine ⟨?_, ?_, ?_, ?_, ?_, ?_⟩ <;>
    norm_num [add_water, decrease_soil_moisture, moisture_depletion_rate]

/-- C9 (code bug): a `collect_data` call whose internally computed
moisture increase is not positive appends no ratio, increments no count
and triggers no evaluation — the state carried by the raise is exactly
the entry state — but instead of the claimed warning the discard path
raises `AttributeError` at src/Optimisation.py line 35, because the
`add_log_entry` method the warning would go through does not exist on
`System`; the call never returns normally. -/
theorem collect_data_discards_nonpositive (c m : ℚ) (r : ℕ → ℚ) (i : ℕ) (s : SysState)
    (h : r (i + 1) - r i ≤ 0) :
    collect_data c m r i s = .error (add_log_entry_error, s) := by
  simp only [collect_data]
  rw [if_neg (not_lt.mpr h)]

/-- C9 witness: equal reads of 50 before and after give a zero increase;
nothing is recorded and the call raises `AttributeError`. -/
theorem collect_data_discards_nonpositive_witness :
    flat_readings (0 + 1) - flat_readings 0 ≤ 0 ∧
    collect_data 20 50 flat_readings 0 init_state = .error (add_log_entry_error, init_state) :=
  ⟨by norm_num [flat_readings],
    collect_data_discards_nonpositive 20 50 flat_readings 0 init_state (by norm_num [flat_readings])⟩

/-- C10: `collect_data` ignores the `current_moisture` value the caller
passes in — its result is the same for any passed value — and instead
derives the increase from two fresh reads taken at and after the call:
with reads 50 then 55 and a passed post-cycle value of 70, it appends
the ratio 20 / (55 - 50) = 4 and increments the count (before the log
call at line 30 raises), not the 20 / (70 - 50) = 1 that the claimed
`(post passed in) - (pre observed before the cycle)` increase would
give. -/
theorem collect_data_ignores_passed_moisture :
    (∀ (c m1 m2 : ℚ) (r : ℕ → ℚ) (i : ℕ) (s : SysState),
      collect_data c m1 r i s = collect_data c m2 r i s) ∧
    collect_data 20 70 step_readings 0 init_state =
      .error (add_log_entry_error,
        { init_state with optimisation_data := [4], optimisation_data_collected := 1 }) ∧
    (20 : ℚ) / (70 - 50) = 1 ∧
    (4 : ℚ) ≠ 1 := by
  refine ⟨fun c m1 m2 r i s => rfl, ?_, by norm_num, by norm_num⟩
  have hpos : step_readings 1 - step_readings 0 > 0 := by
    norm_num [step_readings]
  simp only [collect_data]
  rw [if_pos hpos]
  norm_num [step_readings, init_state]

/-- Helper: when the danger condition is false and the tick is inside
the operating-hours window of whichever mode is configured, the
(unreachable) decision logic reduces to its moisture-threshold part. -/
theorem monitor_plant_decision_gate (s : SysState) (env : TickEnv) (w : WaterEnv) (fuel : ℕ)
    (hd : (s.danger_mode_enabled && s.danger_mode_bypass_enabled &&
      decide (s.soil_moisture ≤ s.danger_mode_level / 100 *
        s.operating_settings_desired_moisture_level)) = false)
    (hga : s.operating_hours_mode = "auto" →
      env.sunrise_time ≤ env.current_time ∧ env.current_time ≤ env.sunset_time)
    (hgm : s.operating_hours_mode = "manual" →
      env.manual_start ≤ env.current_time ∧ env.current_time ≤ env.manual_end) :
    monitor_plant_decision s env w fuel =
      monitor_threshold_branch s env w fuel
        (s.operating_settings_water_threshold / 100 *
          s.operating_settings_desired_moisture_level) false := by
  by_cases hAM : s.operating_hours_mode = "auto" ∨ s.operating_hours_mode = "manual"
  · rcases hAM with ha | hm
    · have hin := hga ha
      have h1 : ¬ (env.current_time < env.sunrise_time ∨ env.current_time > env.sunset_time) := by
        rintro (h | h)
        · exact absurd h (not_lt.mpr hin.1)
        · exact absurd h (not_lt.mpr hin.2)
      simp [monitor_plant_decision, hd, ha, h1]
    · have hin := hgm hm
      have h1 : ¬ (env.current_time < env.manual_start ∨ env.current_time > env.manual_end) := by
        rintro (h | h)
        · exact absurd h (not_lt.mpr hin.1)
        · exact absurd h (not_lt.mpr hin.2)
      simp [monitor_plant_decision, hd, hm, h1]
  · simp [monitor_plant_decision, hd, hAM]

/-- Helper: below the trigger level, with weather detection on and the
configured combination holding, the threshold branch (danger condition
false) records the Weather-Detection postponement and does not water. -/
theorem monitor_threshold_branch_postpones (s : SysState) (env : TickEnv) (w : WaterEnv)
    (fuel : ℕ) (trig : ℚ)
    (hlow : s.soil_moisture ≤ trig)
    (hw : s.weather_detection_enabled = true)
    (hmode : s.weather_detection_mode = "AND" ∨ s.weather_detection_mode = "OR")
    (hc : postpone_combo s env = true) :
    monitor_threshold_branch s env w fuel trig false =
      ({ s with postponedWater :=
          { postponed := true, postponedAt := some env.current_time,
            postponedBy := some "Weather Detection" } },
        TickAction.postponeRain) := by
  rcases hmode with hA | hO
  · rw [postpone_combo, if_pos hA] at hc
    rw [Bool.and_eq_true, decide_eq_true_eq, decide_eq_true_eq] at hc
    simp [monitor_threshold_branch, hlow, hw, hA, hc.1, hc.2]
  · have hOA : ¬ s.weather_detection_mode = "AND" := by
      rw [hO]
      simp
    rw [postpone_combo, if_neg hOA] at hc
    rw [Bool.or_eq_true, decide_eq_true_eq, decide_eq_true_eq] at hc
    simp [monitor_threshold_branch, hlow, hw, hO, hc]

/-- Helper: below the trigger level, with weather detection on and the
configured combination failing, the threshold branch (danger condition
false) proceeds to water to the trigger level. -/
theorem monitor_threshold_branch_waters (s : SysState) (env : TickEnv) (w : WaterEnv)
    (fuel : ℕ) (trig : ℚ)
    (hlow : s.soil_moisture ≤ trig)
    (hw : s.weather_detection_enabled = true)
    (hmode : s.weather_detection_mode = "AND" ∨ s.weather_detection_mode = "OR")
    (hc : postpone_combo s env = false) :
    monitor_threshold_branch s env w fuel trig false =
      (water_plant trig w fuel s, TickAction.waterTrigger trig) := by
  rcases hmode with hA | hO
  · rw [postpone_combo, if_pos hA] at hc
    have hnc : ¬ (env.amount_of_rainfall ≥ s.weather_detection_postpone_mm ∧
        env.probability_of_rain ≥ s.weather_detection_postpone_percentage) := by
      rintro ⟨h1, h2⟩
      rw [decide_eq_true h1, decide_eq_true h2] at hc
      simp at hc
    simp [monitor_threshold_branch, hlow, hw, hA, hnc]
  · have hOA : ¬ s.weather_detection_mode = "AND" := by
      rw [hO]
      simp
    rw [postpone_combo, if_neg hOA] at hc
    have hnc : ¬ (env.amount_of_rainfall ≥ s.weather_detection_postpone_mm ∨
        env.probability_of_rain ≥ s.weather_detection_postpone_percentage) := by
      rintro (h1 | h1)
      · rw [decide_eq_true h1] at hc
        simp at hc
      · rw [decide_eq_true h1] at hc
        simp at hc
    simp [monitor_threshold_branch, hlow, hw, hO, hnc]

/-- C1 (code bug): on a danger tick (operating-hours mode `auto` or
`manual`, danger mode and bypass enabled, moisture at most
`dangerLevel`) the claimed watering never happens — `monitor_plant`
raises `TypeError` at the un-awaited weather call of App.py line 235,
before the danger check, and returns the exception with the state
unchanged; the decision logic as written (App.py lines 243-247,
unreachable) would check the danger bypass first and water to
`danger_mode_bypass_water_percentage` regardless of the current time
(inside or outside the operating-hours window) and of the weather
input. -/
theorem danger_override_takes_precedence (s : SysState) (env : TickEnv) (w : WaterEnv)
    (fuel : ℕ)
    (hmode : s.operating_hours_mode = "auto" ∨ s.operating_hours_mode = "manual")
    (hdm : s.danger_mode_enabled = true)
    (hbp : s.danger_mode_bypass_enabled = true)
    (hlev : s.soil_moisture ≤ s.danger_mode_level / 100 *
      s.operating_settings_desired_moisture_level) :
    monitor_plant s env w fuel = .error (unawaited_unpack_error, s) ∧
    monitor_plant_decision s env w fuel =
      (water_plant s.danger_mode_bypass_water_percentage w fuel s,
        TickAction.waterDanger s.danger_mode_bypass_water_percentage) := by
  have hd : (s.danger_mode_enabled && s.danger_mode_bypass_enabled &&
      decide (s.soil_moisture ≤ s.danger_mode_level / 100 *
        s.operating_settings_desired_moisture_level)) = true := by
    rw [hdm, hbp]
    simp [hlev]
  refine ⟨rfl, ?_⟩
  rcases hmode with h | h <;> simp [monitor_plant_decision, h, hd]

/-- C1 witness: at the default configuration with soil moisture 5
(danger level 10) and a tick outside the operating hours with rain
forecast, the real tick raises before the danger check, while the
unreachable decision logic would water to 40. -/
theorem danger_override_takes_precedence_witness :
    (danger_state.operating_hours_mode = "auto" ∨
      danger_state.operating_hours_mode = "manual") ∧
    danger_state.danger_mode_enabled = true ∧
    danger_state.danger_mode_bypass_enabled = true ∧
    danger_state.soil_moisture ≤ danger_state.danger_mode_level / 100 *
      danger_state.operating_settings_desired_moisture_level ∧
    monitor_plant danger_state after_hours_rain_env calm_wenv 3 =
      .error (unawaited_unpack_error, danger_state) ∧
    monitor_plant_decision danger_state after_hours_rain_env calm_wenv 3 =
      (water_plant danger_state.danger_mode_bypass_water_percentage calm_wenv 3 danger_state,
        TickAction.waterDanger danger_state.danger_mode_bypass_water_percentage) := by
  refine ⟨Or.inl rfl, rfl, rfl, ?_, ?_, ?_⟩
  · norm_num [danger_state, running_state, init_state]
  · exact (danger_override_takes_precedence danger_state after_hours_rain_env calm_wenv 3
      (Or.inl rfl) rfl rfl (by norm_num [danger_state, running_state, init_state])).1
  · exact (danger_override_takes_precedence danger_state after_hours_rain_env calm_wenv 3
      (Or.inl rfl) rfl rfl (by norm_num [danger_state, running_state, init_state])).2

/-- C3 (code bug): in a tick that would reach the moisture-threshold
logic (danger condition false, inside the operating-hours window), with
weather detection enabled, moisture at most the trigger level and the
weather mode `AND` or `OR`, the program never postpones nor waters —
`monitor_plant` raises `TypeError` at the un-awaited weather call of
App.py line 235 before any decision, returning the exception with the
state (and so the postponement record) unchanged; the decision logic as
written (App.py lines 259-294, unreachable) postpones exactly when the
configured combination holds — setting the record to
postponed/now/"Weather Detection" without watering — and waters to the
trigger level when the combination fails. -/
theorem weather_postponement_decision (s : SysState) (env : TickEnv) (w : WaterEnv)
    (fuel : ℕ)
    (hw : s.weather_detection_enabled = true)
    (hmode : s.weather_detection_mode = "AND" ∨ s.weather_detection_mode = "OR")
    (hlow : s.soil_moisture ≤ s.operating_settings_water_threshold / 100 *
      s.operating_settings_desired_moisture_level)
    (hnd : ¬ (s.danger_mode_enabled = true ∧ s.danger_mode_bypass_enabled = true ∧
      s.soil_moisture ≤ s.danger_mode_level / 100 *
        s.operating_settings_desired_moisture_level))
    (hga : s.operating_hours_mode = "auto" →
      env.sunrise_time ≤ env.current_time ∧ env.current_time ≤ env.sunset_time)
    (hgm : s.operating_hours_mode = "manual" →
      env.manual_start ≤ env.current_time ∧ env.current_time ≤ env.manual_end) :
    monitor_plant s env w fuel = .error (unawaited_unpack_error, s) ∧
    (postpone_combo s env = true →
      monitor_plant_decision s env w fuel =
        ({ s with postponedWater :=
            { postponed := true, postponedAt := some env.current_time,
              postponedBy := some "Weather Detection" } },
          TickAction.postponeRain)) ∧
    (postpone_combo s env = false →
      monitor_plant_decision s env w fuel =
        (water_plant (s.operating_settings_water_threshold / 100 *
            s.operating_settings_desired_moisture_level) w fuel s,
          TickAction.waterTrigger (s.operating_settings_water_threshold / 100 *
            s.operating_settings_desired_moisture_level))) := by
  have hd : (s.danger_mode_enabled && s.danger_mode_bypass_enabled &&
      decide (s.soil_moisture ≤ s.danger_mode_level / 100 *
        s.operating_settings_desired_moisture_level)) = false := by
    cases h1 : s.danger_mode_enabled with
    | false => simp [h1]
    | true =>
      cases h2 : s.danger_mode_bypass_enabled with
      | false => simp [h2]
      | true =>
        simp only [h1, h2, Bool.true_and, decide_eq_false_iff_not]
        intro hle
        exact hnd ⟨h1, h2, hle⟩
  refine ⟨rfl, ?_, ?_⟩
  · intro hc
    rw [monitor_plant_decision_gate s env w fuel hd hga hgm]
    exact monitor_threshold_branch_postpones s env w fuel _ hlow hw hmode hc
  · intro hc
    rw [monitor_plant_decision_gate s env w fuel hd hga hgm]
    exact monitor_threshold_branch_waters s env w fuel _ hlow hw hmode hc

/-- C3 witness: at the default `AND` configuration with moisture 15
(trigger 20), danger mode off and a mid-day tick, the real tick raises
before any decision; the unreachable decision logic postpones with the
Weather-Detection record at rainfall 6/probability 40, and waters to
the trigger level at probability 10. -/
theorem weather_postponement_decision_witness :
    low_moisture_state.weather_detection_enabled = true ∧
    (low_moisture_state.weather_detection_mode = "AND" ∨
      low_moisture_state.weather_detection_mode = "OR") ∧
    low_moisture_state.soil_moisture ≤
      low_moisture_state.operating_settings_water_threshold / 100 *
        low_moisture_state.operating_settings_desired_moisture_level ∧
    (¬ (low_moisture_state.danger_mode_enabled = true ∧
      low_moisture_state.danger_mode_bypass_enabled = true ∧
      low_moisture_state.soil_moisture ≤ low_moisture_state.danger_mode_level / 100 *
        low_moisture_state.operating_settings_desired_moisture_level)) ∧
    monitor_plant low_moisture_state in_hours_rain_env calm_wenv 3 =
      .error (unawaited_unpack_error, low_moisture_state) ∧
    postpone_combo low_moisture_state in_hours_rain_env = true ∧
    monitor_plant_decision low_moisture_state in_hours_rain_env calm_wenv 3 =
      ({ low_moisture_state with postponedWater :=
          { postponed := true, postponedAt := some in_hours_rain_env.current_time,
            postponedBy := some "Weather Detection" } },
        TickAction.postponeRain) ∧
    postpone_combo low_moisture_state in_hours_dry_env = false ∧
    monitor_plant_decision low_moisture_state in_hours_dry_env calm_wenv 3 =
      (water_plant (low_moisture_state.operating_settings_water_threshold / 100 *
          low_moisture_state.operating_settings_desired_moisture_level) calm_wenv 3
          low_moisture_state,
        TickAction.waterTrigger (low_moisture_state.operating_settings_water_threshold / 100 *
          low_moisture_state.operating_settings_desired_moisture_level)) := by
  have hnd : ¬ (low_moisture_state.danger_mode_enabled = true ∧
      low_moisture_state.danger_mode_bypass_enabled = true ∧
      low_moisture_state.soil_moisture ≤ low_moisture_state.danger_mode_level / 100 *
        low_moisture_state.operating_settings_desired_moisture_level) := by
    simp [low_moisture_state]
  have hlow : low_moisture_state.soil_moisture ≤
      low_moisture_state.operating_settings_water_threshold / 100 *
        low_moisture_state.operating_settings_desired_moisture_level := by
    norm_num [low_moisture_state, running_state, init_state]
  have hga : low_moisture_state.operating_hours_mode = "auto" →
      in_hours_rain_env.sunrise_time ≤ in_hours_rain_env.current_time ∧
        in_hours_rain_env.current_time ≤ in_hours_rain_env.sunset_time := by
    intro _
    exact ⟨by norm_num [in_hours_rain_env], by norm_num [in_hours_rain_env]⟩
  have hgm : low_moisture_state.operating_hours_mode = "manual" →
      in_hours_rain_env.manual_start ≤ in_hours_rain_env.current_time ∧
        in_hours_rain_env.current_time ≤ in_hours_rain_env.manual_end := by
    intro h
    simp [low_moisture_state, running_state, init_state] at h
  have hga2 : low_moisture_state.operating_hours_mode = "auto" →
      in_hours_dry_env.sunrise_time ≤ in_hours_dry_env.current_time ∧
        in_hours_dry_env.current_time ≤ in_hours_dry_env.sunset_time := by
    intro _
    exact ⟨by norm_num [in_hours_dry_env], by norm_num [in_hours_dry_env]⟩
  have hgm2 : low_moisture_state.operating_hours_mode = "manual" →
      in_hours_dry_env.manual_start ≤ in_hours_dry_env.current_time ∧
        in_hours_dry_env.current_time ≤ in_hours_dry_env.manual_end := by
    intro h
    simp [low_moisture_state, running_state, init_state] at h
  have hc1 : postpone_combo low_moisture_state in_hours_rain_env = true := by
    rw [postpone_combo]
    norm_num [low_moisture_state, running_state, init_state, in_hours_rain_env]
  have hc2 : postpone_combo low_moisture_state in_hours_dry_env = false := by
    rw [postpone_combo]
    norm_num [low_moisture_state, running_state, init_state, in_hours_dry_env]
  refine ⟨rfl, Or.inl rfl, hlow, hnd, ?_, hc1, ?_, hc2, ?_⟩
  · exact (weather_postponement_decision low_moisture_state in_hours_rain_env calm_wenv 3
      rfl (Or.inl rfl) hlow hnd hga hgm).1
  · exact (weather_postponement_decision low_moisture_state in_hours_rain_env calm_wenv 3
      rfl (Or.inl rfl) hlow hnd hga hgm).2.1 hc1
  · exact (weather_postponement_decision low_moisture_state in_hours_dry_env calm_wenv 3
      rfl (Or.inl rfl) hlow hnd hga2 hgm2).2.2 hc2

end Watering
